import Mathlib

/-!
Shallow embedding of the Vibe-Check dashboard logic, translated from
`src/pages/live_dashboard.py` and `src/pages/student_analytics.py`.

Modelling conventions:
- Machine integers are `Int`; Python `randint(a, b)` draws are modelled as
  explicitly passed values together with their range `a ≤ d ≤ b - 1`.
- Python float expressions appear only in `get_color_from_score`
  (`ratio = .../50.0`, `int(255 * ...)`); they are modelled in exact
  arithmetic: the truncated results equal integer divisions by 50 of
  nonnegative operands (truncation toward zero coincides with floor there,
  and Lean integer division `/` on nonnegative operands is that floor).
  IEEE-754 double rounding deviates from exact arithmetic at exactly one
  input of the clamped range, score = 90, where the red channel is 50
  instead of 51; none of the properties proved below distinguishes the two
  semantics (endpoints, saturated channels and monotonicity agree).
- Fractional display constants (donut hole size, slice pull) are scaled by
  100 to stay in `Int`: hole 0.5 ↦ 50, hole 0.65 ↦ 65, pull 0.1 ↦ 10.
- Time labels `HH:MM` are modelled as minutes-of-day (`Nat` below 1440);
  the `pd.to_datetime`/`strftime` round trip that adds 5 minutes becomes
  addition modulo 1440, and the label `10:00` becomes 600.
-/

/-- Clamp from line 40 of `get_color_from_score`
(`score = max(0, min(100, score))`): the display clamp to [0, 100]. -/
def color_clamp (score : Int) : Int :=
  max 0 (min 100 score)

/-- Lines 38-56, `get_color_from_score(score)`: returns the channel triple
(r, g, b) of the produced hex string. On the branch `score >= 50`,
`r = int(255 * (1 - (score - 50)/50.0))`, whose exact value is
`(255 * (100 - score)) / 50` truncated; on the other branch
`g = int(255 * (score / 50.0))` = `(255 * score) / 50` truncated. Both
operands are nonnegative after clamping, so truncation is integer
division. `b` is always 0. -/
def get_color_from_score (score : Int) : Int × Int × Int :=
  let s := color_clamp score
  if 50 ≤ s then
    ((255 * (100 - s)) / 50, 255, 0)
  else
    (255, (255 * s) / 50, 0)

/-- Status band payload: the dict `{'label', 'color', 'bg'}` of each
`VIBE_STATUS_MAP` entry (lines 17-22). -/
structure StatusEntry where
  label : String
  color : String
  bg : String
deriving DecidableEq

/-- Lines 17-22: `VIBE_STATUS_MAP` as a threshold-keyed association list in
dict insertion order (keys 80, 65, 50, 0). -/
def VIBE_STATUS_MAP : List (Int × StatusEntry) :=
  [ (80, ⟨"OPTIMAL VIBE", "emerald-500", "bg-emerald-900/50"⟩),
    (65, ⟨"WATCH LEVEL", "yellow-500", "bg-yellow-900/50"⟩),
    (50, ⟨"HIGH ALERT", "orange-500", "bg-orange-900/50"⟩),
    (0, ⟨"CRITICAL BREACH", "red-500", "bg-red-900/50"⟩) ]

/-- Lines 363-368 of `update_vibe_score_and_color`: the status scan.
`status_data` starts as the default `VIBE_STATUS_MAP[80]`; the loop over
`sorted(VIBE_STATUS_MAP.items(), reverse=True)` (which is exactly the list
above, already in descending key order) breaks at the first entry with
`new_score >= threshold`. The result keeps the matched threshold with its
entry; the source variable holds the entry alone. -/
def status_scan (new_score : Int) : Int × StatusEntry :=
  match VIBE_STATUS_MAP.find? (fun p => new_score ≥ p.1) with
  | some p => p
  | none => (80, ⟨"OPTIMAL VIBE", "emerald-500", "bg-emerald-900/50"⟩)

/-- Written from the claim wording of C5, not from the source: the entry of
`VIBE_STATUS_MAP` with the highest threshold at most `s`, to be compared
with the scan of the source. -/
def highest_entry_le (s : Int) : Option (Int × StatusEntry) :=
  (VIBE_STATUS_MAP.filter (fun p => p.1 ≤ s)).argmax (fun p => p.1)

/-- Lines 290-298 of `update_vibe_score_and_color`: the biased delta.
`d1` is the initial `np.random.randint(-3, 4)` draw; `d2` is the draw
`np.random.randint(-2, 2)` used when `current_score > 85 and score_change > 0`;
`d3` is the draw `np.random.randint(-1, 4)` used when
`current_score < 60 and score_change < 0` (tested on the possibly redrawn
value). Draw ranges are hypotheses of the theorems. -/
def score_change_biased (current_score d1 d2 d3 : Int) : Int :=
  let score_change := d1
  let score_change := if current_score > 85 ∧ score_change > 0 then d2 else score_change
  let score_change := if current_score < 60 ∧ score_change < 0 then d3 else score_change
  score_change

/-- Lines 300-303 of `update_vibe_score_and_color`: add the delta and clamp
the new score to [30, 99] (`new_score = max(30, min(99, new_score))`). -/
def apply_score_change (current_score score_change : Int) : Int :=
  max 30 (min 99 (current_score + score_change))

/-- One whole score step of the interval callback: biased delta then
clamped addition. -/
def score_step (current_score d1 d2 d3 : Int) : Int :=
  apply_score_change current_score (score_change_biased current_score d1 d2 d3)

/-- Python list slice `l[-k:]` for `k > 0`: the last `k` elements (the whole
list when shorter). Used by the `graph_data[...][-max_points:]` trims. -/
def pyTail (k : Nat) (l : List α) : List α :=
  l.drop (l.length - k)

/-- Lines 310-315 of `update_vibe_score_and_color`: the next time label.
Labels are minutes-of-day; parsing `HH:MM`, adding `pd.Timedelta(minutes=5)`
and re-formatting `%H:%M` is addition modulo 1440, and the fallback label
`10:00` for an empty list is 600. -/
def next_time_label (time : List Nat) : Nat :=
  match time.getLast? with
  | some last_time => (last_time + 5) % 1440
  | none => 600

/-- The graph data store `predictive-graph-data` (lines 137-141): the
`time` and `actual` series. The stored `predicted` key is written at layout
time and never read back by the callback (the callback recomputes a local
`y_predicted` from `actual` each tick), so it is not part of the evolving
state. -/
structure GraphData where
  time : List Nat
  actual : List Int
deriving DecidableEq

/-- Lines 317-324 of `update_vibe_score_and_color`: append the new sample
to `time` and `actual`, then trim both to the last `max_points = 20`
entries. -/
def graph_append_trim (graph_data : GraphData) (new_score : Int) : GraphData :=
  let new_time := next_time_label graph_data.time
  { time := pyTail 20 (graph_data.time ++ [new_time]),
    actual := pyTail 20 (graph_data.actual ++ [new_score]) }

/-- One loop iteration of the merge at lines 341-344: set slot
`start + i` of the running `y_predicted` when that index is in range. -/
def merge_step (mock_forecast : List Int) (start : Nat)
    (y : List (Option Int)) (i : Nat) : List (Option Int) :=
  if start + i < y.length then y.set (start + i) (some (mock_forecast.getD i 0)) else y

/-- Lines 341-344: the `for i in range(len(mock_forecast))` merge loop. -/
def merge_forecast (y : List (Option Int)) (start : Nat)
    (mock_forecast : List Int) : List (Option Int) :=
  (List.range mock_forecast.length).foldl (merge_step mock_forecast start) y

/-- Lines 327-344 of `update_vibe_score_and_color`: the local `y_predicted`
series computed each tick from the post-trim `actual` list. Starts as
`[None] * len(actual)`; when `new_score <= 70`, the tail window starting at
`prediction_start_index = max(0, len - 5)` is overwritten with
`mock_forecast[i] = actual[start + i] - 5 - i*2`. -/
def y_predicted_calc (actual : List Int) (new_score : Int) : List (Option Int) :=
  let y0 : List (Option Int) := List.replicate actual.length none
  if new_score ≤ 70 then
    let prediction_start_index := actual.length - 5
    let mock_forecast :=
      (actual.drop prediction_start_index).enum.map (fun p => p.2 - 5 - (p.1 : Int) * 2)
    merge_forecast y0 prediction_start_index mock_forecast
  else
    y0

/-- Lines 329, 332, 347 of `update_vibe_score_and_color`: the forecast
narrative, critical by default, replaced by the stable narrative when
`new_score > 70`. -/
def prediction_text (new_score : Int) : String :=
  if new_score ≤ 70 then
    "PREDICTED VIBE DROP: -25% in 15 minutes. HIGH DISENGAGEMENT PROTOCOL ACTIVE."
  else
    "FORECAST: STABLE. CONTINUE CURRENT PEDAGOGICAL PROTOCOL."

/-- Lines 330, 332, 348 of `update_vibe_score_and_color`: the
recommendation narrative, critical by default, replaced when
`new_score > 70`. -/
def recommendation_text (new_score : Int) : String :=
  if new_score ≤ 70 then
    "EXECUTE GROUP HACK V2.0 NOW (5 MIN). OVERRIDE FATIGUE/RE-ENGAGE."
  else
    "PROTOCOL GREEN: MONITOR VIBE SCORE."

/-- The session state threaded through the interval callback: the
`vibe-score-storage` store and the graph data store. -/
structure SimState where
  current_score : Int
  graph_data : GraphData
deriving DecidableEq

/-- One tick of `update_vibe_score_and_color` (lines 281-324), restricted
to the state the callback reads back on the next tick: score step, then
append-and-trim of the series. The draw triple carries the three possible
`randint` calls of the tick. -/
def advance (st : SimState) (draws : Int × Int × Int) : SimState :=
  let new_score := score_step st.current_score draws.1 draws.2.1 draws.2.2
  { current_score := new_score,
    graph_data := graph_append_trim st.graph_data new_score }

/-- Iterate `advance` over a stream of draw triples. -/
def advanceN : Nat → (Nat → Int × Int × Int) → SimState → SimState
  | 0, _, st => st
  | n + 1, draws, st => advanceN n (fun i => draws (i + 1)) (advance st (draws 0))

/-- Python list element assignment `l[i] = v` with negative-index
wrap-around (`l[-1]` is the last element). Every call site below stays in
range, where Python would also succeed; out of range is modelled as a
no-op where Python would raise. -/
def pySet (l : List Int) (i : Int) (v : Int) : List Int :=
  let j := if i < 0 then i + l.length else i
  if 0 ≤ j ∧ j < l.length then l.set j.toNat v else l

/-- The activity donut figure fields the claims are about: `hole` and
`pull` of the `go.Pie` trace (lines 109-117), both in hundredths. -/
structure Figure where
  hole : Int
  pull : List Int
deriving DecidableEq

/-- Lines 99-129, `create_activity_graph(hole_size, colors, pull_index)`:
`pull_list = [0.0] * len(df_activity)` (5 activities, line 93-97), and
`if pull_index is not None: pull_list[pull_index] = 0.1`. The guard is a
None test, so the integer `-1` passed by the callback does reach the
assignment and, by Python negative indexing, pulls the LAST slice. -/
def create_activity_graph (hole_size : Int) (pull_index : Option Int) : Figure :=
  let pull_list := List.replicate 5 (0 : Int)
  let pull_list :=
    match pull_index with
    | none => pull_list
    | some i => pySet pull_list i 10
  { hole := hole_size, pull := pull_list }

/-- Lines 396-422, the body of `update_activity_graph(clickData, state)`:
first component is the returned figure, second is the value left in the
callback-local `state` dict (`state['pull_index'] = new_pull_index`).
The guard at line 399,
`not clickData or (state.get('pull_index', -1) != -1 and not clickData)`,
is equivalent to `not clickData`. `hole_size=0.5` and `0.65` are 50 and
65 in hundredths. -/
def update_activity_graph (clickData : Option Nat) (state_pull_index : Int) :
    Figure × Int :=
  match clickData with
  | none => (create_activity_graph 50 (some (-1)), -1)
  | some clicked_index =>
    if (clicked_index : Int) = state_pull_index then
      (create_activity_graph 50 (some (-1)), -1)
    else
      (create_activity_graph 65 (some (clicked_index : Int)), (clicked_index : Int))

/-- The Dash wiring of the donut callback (lines 391-395): its only
`Output` is `activity-chart.figure`; the store `activity-chart-state` is
passed as `State` and is NOT among the outputs, so the browser-side store
data is unchanged by the callback and the server-local dict mutation is
discarded. One delivered click therefore maps the store value to itself
and produces the figure. -/
def activity_click_step (store_pull_index : Int) (clickData : Option Nat) :
    Int × Figure :=
  (store_pull_index, (update_activity_graph clickData store_pull_index).1)

/-- A click sequence delivered to the page, starting from the initial
store `{'pull_index': -1}` (line 146) and the initial figure
`create_activity_graph()` (line 223, defaults `hole_size=0.5`,
`pull_index=None`). Returns the final store value and figure. -/
def run_clicks (clicks : List (Option Nat)) : Int × Figure :=
  clicks.foldl (fun st c => activity_click_step st.1 c)
    (-1, create_activity_graph 50 none)

/-- The module-global numpy RNG of `student_analytics.py`, seeded once
at module load (line 15): an abstract stream of draws and a position. One
`np.random.randint(55, 95, n)` call reads `n` consecutive stream values
(mapped into [55, 94]) and advances the position. -/
structure RngState where
  stream : Nat → Int
  pos : Nat

/-- One `np.random.randint(55, 95, n)` vector draw from the global RNG. -/
def randint_55_95 (rng : RngState) (n : Nat) : List Int × RngState :=
  ((List.range n).map (fun i => 55 + (rng.stream (rng.pos + i)) % 40),
   { stream := rng.stream, pos := rng.pos + n })

/-- Lines 25-30 of `student_analytics.py`, `get_historical_data(student_id)`:
ignores `student_id` entirely and returns 10 rows
(day offset from 2025-09-01, fresh random score). The RNG state is the
implicit global threaded explicitly here. -/
def get_historical_data (student_id : String) (rng : RngState) :
    List (Nat × Int) × RngState :=
  let days := 10
  let (scores, rng2) := randint_55_95 rng days
  ((List.range days).zip scores, rng2)

/-- Lines 137-190 of `student_analytics.py`, the data selection of
`update_graph_on_click` for a selected row: look up the student id in the
roster and call `get_historical_data` on it, threading the global RNG.
Returns the plotted (date offset, score) series. -/
def update_graph_on_click_series (selected_id : String) (rng : RngState) :
    List (Nat × Int) × RngState :=
  get_historical_data selected_id rng

/-- C2: one step of advance always lands in [30, 99]: the clamp at line 303
bounds the new score for every input state and every delta (in particular
for the forced extremes, -3 from 30 and +3 from 99), and the color mapper
uses the different clamp [0, 100]: `color_clamp` fixes 29 and caps at 0
and 100 where the simulator clamp raises to 30 and caps at 99. -/
theorem advance_score_clamped_30_99 :
    (∀ current_score score_change : Int,
        30 ≤ apply_score_change current_score score_change ∧
        apply_score_change current_score score_change ≤ 99) ∧
    (∀ current_score d1 d2 d3 : Int,
        30 ≤ score_step current_score d1 d2 d3 ∧
        score_step current_score d1 d2 d3 ≤ 99) ∧
    (∀ (st : SimState) (draws : Int × Int × Int),
        30 ≤ (advance st draws).current_score ∧
        (advance st draws).current_score ≤ 99) ∧
    apply_score_change 30 (-3) = 30 ∧
    apply_score_change 99 3 = 99 ∧
    color_clamp 29 = 29 ∧ apply_score_change 29 0 = 30 ∧
    color_clamp (-3) = 0 ∧ color_clamp 103 = 100 ∧
    apply_score_change (-3) 0 = 30 ∧ apply_score_change 103 0 = 99 := by
  refine ⟨?_, ?_, ?_, by decide, by decide, by decide, by decide, by decide,
    by decide, by decide, by decide⟩
  · intro c d
    unfold apply_score_change
    omega
  · intro c d1 d2 d3
    unfold score_step apply_score_change
    omega
  · intro st draws
    show 30 ≤ score_step st.current_score draws.1 draws.2.1 draws.2.2 ∧
      score_step st.current_score draws.1 draws.2.1 draws.2.2 ≤ 99
    unfold score_step apply_score_change
    omega

/-- C7: the delta pipeline of lines 290-298. Given the three draws with
their `randint` support ranges: when the score is above 85 and the first
draw is positive the delta is the second draw (capped at 1, a narrower
upward range); when the score is below 60 and the first draw is negative
the delta is the third draw (at least -1, biased toward recovery); the two
bias guards are mutually exclusive, and with neither guard the first draw
passes through unchanged. -/
theorem score_change_biased_spec (current_score d1 d2 d3 : Int)
    (h1 : -3 ≤ d1 ∧ d1 ≤ 3) (h2 : -2 ≤ d2 ∧ d2 ≤ 1) (h3 : -1 ≤ d3 ∧ d3 ≤ 3) :
    (85 < current_score → 0 < d1 →
        score_change_biased current_score d1 d2 d3 = d2 ∧
        score_change_biased current_score d1 d2 d3 ≤ 1) ∧
    (current_score < 60 → d1 < 0 →
        score_change_biased current_score d1 d2 d3 = d3 ∧
        -1 ≤ score_change_biased current_score d1 d2 d3) ∧
    ¬((85 < current_score ∧ 0 < d1) ∧ (current_score < 60 ∧ d1 < 0)) ∧
    (¬(85 < current_score ∧ 0 < d1) → ¬(current_score < 60 ∧ d1 < 0) →
        score_change_biased current_score d1 d2 d3 = d1) := by
  refine ⟨?_, ?_, by omega, ?_⟩ <;>
    · intros
      simp only [score_change_biased]
      split_ifs <;> omega

/-- Witness for C7 at a concrete input: score 90, first draw +2 redraws to
the second draw 1. -/
theorem score_change_biased_spec_witness :
    score_change_biased 90 2 1 0 = 1 :=
  ((score_change_biased_spec 90 2 1 0 ⟨by decide, by decide⟩
      ⟨by decide, by decide⟩ ⟨by decide, by decide⟩).1 (by decide) (by decide)).1

/-- C9 counterexample: on a score no threshold matches (score -1, below the
floor threshold 0), the scan of lines 363-368 does not fail: it silently
returns the default band seeded from `VIBE_STATUS_MAP[80]`, the OPTIMAL
VIBE entry. -/
theorem status_scan_no_match_counterexample :
    status_scan (-1) =
      (80, ⟨"OPTIMAL VIBE", "emerald-500", "bg-emerald-900/50"⟩) := by
  decide

/-- C9 as amended: when no entry of the threshold table has threshold at
most the score (only possible for score < 0), the scan silently returns
the default OPTIMAL VIBE band (the entry at key 80) instead of failing. -/
theorem status_scan_no_match_default (s : Int) (h : s < 0) :
    status_scan s =
      (80, ⟨"OPTIMAL VIBE", "emerald-500", "bg-emerald-900/50"⟩) := by
  have hn : VIBE_STATUS_MAP.find? (fun p => s ≥ p.1) = none := by
    rw [List.find?_eq_none]
    intro x hx
    fin_cases hx <;> simp <;> omega
  simp [status_scan, hn]

/-- Witness for the amended C9 at the concrete score -1. -/
theorem status_scan_no_match_default_witness :
    status_scan (-1) =
      (80, ⟨"OPTIMAL VIBE", "emerald-500", "bg-emerald-900/50"⟩) :=
  status_scan_no_match_default (-1) (by decide)

/-- C1 (code divergence): from the initial store value -1, delivering a
click on slice 0 and then a second click on slice 0 leaves the figure
exploded at slice 0 with the enlarged hole, and the session store still
holds -1 — not the un-exploded baseline the claim requires. The cause is
the wiring: the callback never outputs to `activity-chart-state`, so the
comparison `clicked_index == state['pull_index']` always sees -1. The last
conjunct shows the per-call logic would have produced the reset branch had
the store actually carried the first click. -/
theorem donut_double_click_no_reset :
    (run_clicks [some 0, some 0]).2 = { hole := 65, pull := [10, 0, 0, 0, 0] } ∧
    (run_clicks [some 0, some 0]).1 = -1 ∧
    (run_clicks [some 0, some 0]).2 ≠ create_activity_graph 50 none ∧
    (run_clicks [some 0, some 0]).2 = (run_clicks [some 0]).2 ∧
    (update_activity_graph (some 0) 0).1 = create_activity_graph 50 (some (-1)) := by
  decide

/-- C10: `get_historical_data` is independent of the student id — for any
two ids and the same RNG state the histories coincide — and two
consecutive selections of the same student read disjoint segments of the
RNG stream, so there is a stream (witness: the identity stream) on which
the same student yields two different historical series. -/
theorem get_historical_data_ignores_student_id :
    (∀ id1 id2 : String, ∀ rng : RngState,
        (get_historical_data id1 rng).1 = (get_historical_data id2 rng).1 ∧
        (update_graph_on_click_series id1 rng).1 =
          (update_graph_on_click_series id2 rng).1) ∧
    (∃ stream : Nat → Int,
        (update_graph_on_click_series "L-01" ⟨stream, 0⟩).1 ≠
          (update_graph_on_click_series "L-01"
            (update_graph_on_click_series "L-01" ⟨stream, 0⟩).2).1) := by
  constructor
  · intro id1 id2 rng
    exact ⟨rfl, rfl⟩
  · exact ⟨fun n => (n : Int), by decide⟩

/-- C5: on every score of [0, 100] the descending scan of lines 363-368
returns exactly the uniquely determined entry with the highest threshold
at most the score (so the four bands partition [0, 100] with no gaps), the
returned entry is one of the table with threshold below the score, and at
the 80 boundary the band strictly increases: 79 resolves to WATCH LEVEL,
80 to OPTIMAL VIBE. -/
theorem status_scan_highest_threshold (s : Int) (h0 : 0 ≤ s) (h1 : s ≤ 100) :
    highest_entry_le s = some (status_scan s) ∧
    status_scan s ∈ VIBE_STATUS_MAP ∧
    (status_scan s).1 ≤ s ∧
    (status_scan 79).1 < (status_scan 80).1 ∧
    (status_scan 79).2.label = "WATCH LEVEL" ∧
    (status_scan 80).2.label = "OPTIMAL VIBE" := by
  interval_cases s <;> decide

/-- Witness for C5 at the concrete score 83, which resolves to the
65-threshold WATCH LEVEL band. -/
theorem status_scan_highest_threshold_witness :
    highest_entry_le 83 = some (status_scan 83) ∧
    status_scan 83 ∈ VIBE_STATUS_MAP ∧
    (status_scan 83).1 ≤ 83 ∧
    (status_scan 79).1 < (status_scan 80).1 ∧
    (status_scan 79).2.label = "WATCH LEVEL" ∧
    (status_scan 80).2.label = "OPTIMAL VIBE" :=
  status_scan_highest_threshold 83 (by decide) (by decide)

/-- C6: the channel triple on [0, 100]. The input is clamped first (the
mapper is invariant under its own clamp); blue is always 0; green
saturates at 255 on scores at least 50 and red saturates at 255 on scores
at most 50 (both 255 at exactly 50); within [50, 100] red falls strictly
at the linear rate 5.1 per unit (5 or 6 per step after truncation) from
255 at 50 down to 0 at 100, and within [0, 50) green rises strictly at
the same rate from 0 at 0 up to 255 at 50; both channels stay in
[0, 255], so the triple is a 24-bit RGB value with blue 0. -/
theorem get_color_channel_spec (s : Int) (h0 : 0 ≤ s) (h1 : s ≤ 100) :
    (∀ t : Int, get_color_from_score t = get_color_from_score (color_clamp t)) ∧
    (get_color_from_score s).2.2 = 0 ∧
    (50 ≤ s → (get_color_from_score s).2.1 = 255) ∧
    (s ≤ 50 → (get_color_from_score s).1 = 255) ∧
    0 ≤ (get_color_from_score s).1 ∧ (get_color_from_score s).1 ≤ 255 ∧
    0 ≤ (get_color_from_score s).2.1 ∧ (get_color_from_score s).2.1 ≤ 255 ∧
    (get_color_from_score 100).1 = 0 ∧
    (get_color_from_score 0).2.1 = 0 ∧
    (50 ≤ s → s < 100 →
      (get_color_from_score (s + 1)).1 < (get_color_from_score s).1 ∧
      5 ≤ (get_color_from_score s).1 - (get_color_from_score (s + 1)).1 ∧
      (get_color_from_score s).1 - (get_color_from_score (s + 1)).1 ≤ 6) ∧
    (s < 50 →
      (get_color_from_score s).2.1 < (get_color_from_score (s + 1)).2.1 ∧
      5 ≤ (get_color_from_score (s + 1)).2.1 - (get_color_from_score s).2.1 ∧
      (get_color_from_score (s + 1)).2.1 - (get_color_from_score s).2.1 ≤ 6) := by
  constructor
  · intro t
    have hc : color_clamp (color_clamp t) = color_clamp t := by
      unfold color_clamp; omega
    simp only [get_color_from_score, hc]
  · interval_cases s <;> decide

/-- Witness for C6 at the concrete score 75 (yellow-green region). -/
theorem get_color_channel_spec_witness :
    (get_color_from_score 75).2.2 = 0 ∧
    (get_color_from_score 75).2.1 = 255 ∧
    (get_color_from_score 75).1 = 127 :=
  ⟨(get_color_channel_spec 75 (by decide) (by decide)).2.1,
   (get_color_channel_spec 75 (by decide) (by decide)).2.2.1 (by decide),
   by decide⟩

/-- C8: the greenness ordering (green channel minus red channel) of the
color mapper output never decreases as the score increases. -/
theorem get_color_greenness_monotone (s1 s2 : Int) (h : s1 ≤ s2) :
    (get_color_from_score s1).2.1 - (get_color_from_score s1).1 ≤
      (get_color_from_score s2).2.1 - (get_color_from_score s2).1 := by
  unfold get_color_from_score color_clamp
  simp only []
  split_ifs <;> simp <;> omega

/-- Witness for C8 at the concrete scores 30 and 80. -/
theorem get_color_greenness_monotone_witness :
    (get_color_from_score 30).2.1 - (get_color_from_score 30).1 ≤
      (get_color_from_score 80).2.1 - (get_color_from_score 80).1 :=
  get_color_greenness_monotone 30 80 (by decide)

/-- Unfolding equation of one merge-loop iteration. -/
theorem merge_step_apply (mock : List Int) (start : Nat)
    (y : List (Option Int)) (i : Nat) :
    merge_step mock start y i =
      if start + i < y.length then y.set (start + i) (some (mock.getD i 0)) else y := rfl

/-- The merge loop never changes the length of the running list. -/
theorem merge_fold_length (mock : List Int) (start n : Nat) (y : List (Option Int)) :
    ((List.range n).foldl (merge_step mock start) y).length = y.length := by
  induction n with
  | zero => rfl
  | succ n ih =>
    rw [List.range_succ, List.foldl_append, List.foldl_cons, List.foldl_nil]
    unfold merge_step
    split_ifs with h
    · rw [List.length_set]; exact ih
    · exact ih

/-- Element-wise characterization of the merge loop: slots of
`[start, start + n)` that are in range receive the forecast values, all
other slots are untouched. -/
theorem merge_fold_getElem (mock : List Int) (start n : Nat)
    (y : List (Option Int)) (j : Nat) :
    ((List.range n).foldl (merge_step mock start) y)[j]? =
      if start ≤ j ∧ j < start + n ∧ j < y.length then
        some (some (mock.getD (j - start) 0))
      else y[j]? := by
  induction n with
  | zero =>
    simp only [List.range_zero, List.foldl_nil]
    split_ifs with h
    · omega
    · rfl
  | succ n ih =>
    rw [List.range_succ, List.foldl_append, List.foldl_cons, List.foldl_nil,
      merge_step_apply, merge_fold_length]
    by_cases h : start + n < y.length
    · rw [if_pos h, List.getElem?_set, merge_fold_length, ih]
      by_cases hj : start + n = j
      · rw [if_pos hj, if_pos (show start + n < y.length from h),
          if_pos (show start ≤ j ∧ j < start + (n + 1) ∧ j < y.length by omega),
          show j - start = n by omega]
      · rw [if_neg hj]
        split_ifs <;> first | rfl | omega
    · rw [if_neg h, ih]
      split_ifs <;> first | rfl | omega

/-- The computed forecast series always has the length of the actual
series. -/
theorem y_predicted_len (actual : List Int) (new_score : Int) :
    (y_predicted_calc actual new_score).length = actual.length := by
  unfold y_predicted_calc merge_forecast
  split_ifs with h
  · rw [merge_fold_length, List.length_replicate]
  · rw [List.length_replicate]

/-- Closed form of the forecast slots in the critical case. -/
theorem y_predicted_getD (actual : List Int) (new_score : Int) (i : Nat)
    (hi : i < actual.length) (hs : new_score ≤ 70) :
    (y_predicted_calc actual new_score).getD i none =
      if actual.length - 5 ≤ i then
        some (actual.getD i 0 - 5 - 2 * ((i - (actual.length - 5) : Nat) : Int))
      else none := by
  have hmock : ((actual.drop (actual.length - 5)).enum.map
      (fun p => p.2 - 5 - (p.1 : Int) * 2)).length =
        actual.length - (actual.length - 5) := by
    rw [List.length_map, List.enum_length, List.length_drop]
  unfold y_predicted_calc merge_forecast
  rw [if_pos hs, List.getD_eq_getElem?_getD, merge_fold_getElem]
  rw [hmock, List.length_replicate]
  set start := actual.length - 5 with hstart
  split_ifs with h1 h2 h2
  · rw [List.getD_eq_getElem?_getD, List.getElem?_map, List.getElem?_enum,
      List.getElem?_drop]
    rw [show start + (i - start) = i by omega, List.getElem?_eq_getElem hi]
    rw [List.getD_eq_getElem?_getD, List.getElem?_eq_getElem hi]
    simp only [Option.map_some', Option.getD_some]
    ring_nf
  · omega
  · omega
  · rw [List.getElem?_replicate, if_pos hi]
    rfl

/-- Trimming to the last 20 entries bounds the length by 20. -/
theorem pyTail_twenty_len (l : List α) : (pyTail 20 l).length ≤ 20 := by
  unfold pyTail
  rw [List.length_drop]
  omega

/-- Once inside the 20-sample window, every further advance stays inside. -/
theorem advanceN_keeps_window (n : Nat) (draws : Nat → Int × Int × Int)
    (st : SimState) (h1 : st.graph_data.actual.length ≤ 20)
    (h2 : st.graph_data.time.length ≤ 20) :
    (advanceN n draws st).graph_data.actual.length ≤ 20 ∧
    (advanceN n draws st).graph_data.time.length ≤ 20 := by
  induction n generalizing draws st with
  | zero => exact ⟨h1, h2⟩
  | succ n ih =>
    simp only [advanceN]
    exact ih _ _ (pyTail_twenty_len _) (pyTail_twenty_len _)

/-- C3: one tick appends the fresh sample at the back of both series and
keeps exactly the last 20 entries, dropping the overflow from the front
(the result is a suffix of the appended list, so the surviving samples
keep their relative order), and after any positive number of advances from
any starting state both series have at most 20 entries. -/
theorem history_sliding_window :
    (∀ (gd : GraphData) (s : Int),
        (graph_append_trim gd s).actual.length ≤ 20 ∧
        (graph_append_trim gd s).time.length ≤ 20 ∧
        (graph_append_trim gd s).actual =
          (gd.actual ++ [s]).drop ((gd.actual.length + 1) - 20) ∧
        (graph_append_trim gd s).time =
          (gd.time ++ [next_time_label gd.time]).drop ((gd.time.length + 1) - 20) ∧
        (graph_append_trim gd s).actual <:+ gd.actual ++ [s] ∧
        (graph_append_trim gd s).time <:+ gd.time ++ [next_time_label gd.time] ∧
        (∀ new_score : Int,
          (y_predicted_calc (graph_append_trim gd s).actual new_score).length ≤ 20)) ∧
    (∀ (n : Nat) (draws : Nat → Int × Int × Int) (st : SimState), 1 ≤ n →
        (advanceN n draws st).graph_data.actual.length ≤ 20 ∧
        (advanceN n draws st).graph_data.time.length ≤ 20) := by
  constructor
  · intro gd s
    refine ⟨pyTail_twenty_len _, pyTail_twenty_len _, ?_, ?_,
      List.drop_suffix _ _, List.drop_suffix _ _, fun ns => ?_⟩
    · simp [graph_append_trim, pyTail, List.length_append]
    · simp [graph_append_trim, pyTail, List.length_append]
    · rw [y_predicted_len]
      exact pyTail_twenty_len _
  · rintro n draws st hn
    obtain ⟨m, rfl⟩ : ∃ m, n = m + 1 := ⟨n - 1, by omega⟩
    simp only [advanceN]
    exact advanceN_keeps_window m _ _ (pyTail_twenty_len _) (pyTail_twenty_len _)

/-- Witness for C3: 25 advances from the one-sample state with constant
draws keep both series within 20 entries. -/
theorem history_sliding_window_witness :
    (advanceN 25 (fun _ => (1, 1, 0)) ⟨95, ⟨[600], [95]⟩⟩).graph_data.actual.length ≤ 20 ∧
    (advanceN 25 (fun _ => (1, 1, 0)) ⟨95, ⟨[600], [95]⟩⟩).graph_data.time.length ≤ 20 :=
  history_sliding_window.2 25 (fun _ => (1, 1, 0)) ⟨95, ⟨[600], [95]⟩⟩ (by decide)

/-- C4: after one tick with resulting score `new_score`, the forecast
series has the length of the post-eviction actual series; when
`new_score ≤ 70` the slots of the last `min(5, length)` positions carry
exactly `actual[i] - 5 - 2*offset` (offset = 0-based position inside the
lookback window) while every earlier slot is absent, and the critical
narrative pair is selected; when `new_score > 70` every slot is absent and
the stable narrative pair is selected. -/
theorem forecast_tail_only (actual : List Int) (new_score : Int) (i : Nat)
    (hi : i < actual.length) :
    (y_predicted_calc actual new_score).length = actual.length ∧
    (new_score ≤ 70 → actual.length - 5 ≤ i →
        (y_predicted_calc actual new_score).getD i none =
          some (actual.getD i 0 - 5 -
            2 * ((i - (actual.length - 5) : Nat) : Int))) ∧
    (new_score ≤ 70 → i < actual.length - 5 →
        (y_predicted_calc actual new_score).getD i none = none) ∧
    (70 < new_score → (y_predicted_calc actual new_score).getD i none = none) ∧
    (new_score ≤ 70 →
        prediction_text new_score =
          "PREDICTED VIBE DROP: -25% in 15 minutes. HIGH DISENGAGEMENT PROTOCOL ACTIVE." ∧
        recommendation_text new_score =
          "EXECUTE GROUP HACK V2.0 NOW (5 MIN). OVERRIDE FATIGUE/RE-ENGAGE.") ∧
    (70 < new_score →
        prediction_text new_score =
          "FORECAST: STABLE. CONTINUE CURRENT PEDAGOGICAL PROTOCOL." ∧
        recommendation_text new_score =
          "PROTOCOL GREEN: MONITOR VIBE SCORE.") := by
  refine ⟨y_predicted_len actual new_score, ?_, ?_, ?_, ?_, ?_⟩
  · intro hs hwin
    rw [y_predicted_getD actual new_score i hi hs, if_pos hwin]
  · intro hs hwin
    rw [y_predicted_getD actual new_score i hi hs, if_neg (by omega)]
  · intro hs
    unfold y_predicted_calc
    rw [if_neg (by omega), List.getD_eq_getElem?_getD, List.getElem?_replicate,
      if_pos hi]
    rfl
  · intro hs
    unfold prediction_text recommendation_text
    rw [if_pos hs, if_pos hs]
    exact ⟨rfl, rfl⟩
  · intro hs
    unfold prediction_text recommendation_text
    rw [if_neg (by omega), if_neg (by omega)]
    exact ⟨rfl, rfl⟩

/-- Witness for C4 on the concrete 6-sample history with critical score 64
(slot 3 carries 68 - 5 - 2*2 = 59, slot 0 is absent) and with stable score
80 (slot 3 absent). -/
theorem forecast_tail_only_witness :
    (y_predicted_calc [80, 75, 72, 68, 66, 64] 64).getD 3 none = some 59 ∧
    (y_predicted_calc [80, 75, 72, 68, 66, 64] 64).getD 0 none = none ∧
    (y_predicted_calc [80, 75, 72, 68, 66, 80] 80).getD 3 none = none := by
  refine ⟨?_, ?_, ?_⟩
  · exact ((forecast_tail_only [80, 75, 72, 68, 66, 64] 64 3 (by decide)).2.1
      (by decide) (by decide)).trans (by decide)
  · exact (forecast_tail_only [80, 75, 72, 68, 66, 64] 64 0 (by decide)).2.2.1
      (by decide) (by decide)
  · exact (forecast_tail_only [80, 75, 72, 68, 66, 80] 80 3 (by decide)).2.2.2.1
      (by decide)
